import Mathlib

/-!
Verification of the frodo URL-shortening service (src/main.go).

The embedding models:
- the badger-backed key-value adapter `KV` (Exists/Get/Set/Delete) as a
  store `String → Option Record` with abstract integer time (minutes);
- `strconv.Atoi` as `goAtoi`;
- `GenerateRandomString` parametrized by a stream of sampled indices
  (crypto/rand.Int(reader, 62) returns a uniform value in [0, 62), and may
  fail, hence `Option (Fin 62)`);
- the three HTTP handlers (`createHandler`, `redirectHandler`,
  `deleteHandler`) as pure functions from request fields and store state to
  a response and a new store state.
-/

/-- A stored record: the destination URL and an optional absolute expiry
time (badger: a key with `ExpiresAt = t` is treated as absent once
`t ≤ now`; with no TTL it never expires). Time is in abstract units
(minutes since some epoch). -/
structure Record where
  value : String
  expiresAt : Option Int
deriving DecidableEq

/-- The key-value store state: keys are short codes, values are records. -/
abbrev Store := String → Option Record

def emptyStore : Store := fun _ => none

/-- A record is live at time `now` when it has no expiry or its expiry is
strictly in the future (badger treats `ExpiresAt ≤ now` as expired). -/
def live (now : Int) (r : Record) : Bool :=
  match r.expiresAt with
  | none => true
  | some t => decide (now < t)

/-- Engine read errors: badger's ErrKeyNotFound, or any other failure. -/
inductive BErr
  | keyNotFound
  | other
deriving DecidableEq

/-- The badger `tx.Get` inside a View transaction: key not found when the
key is absent or expired, otherwise the record (a successful Get always
yields a non-nil item). -/
def engineGet (s : Store) (now : Int) (k : String) : Except BErr Record :=
  match s k with
  | none => Except.error BErr.keyNotFound
  | some r => if live now r then Except.ok r else Except.error BErr.keyNotFound

/-- `KV.Exists` (main.go:161-176) as a function of the engine read result:
`err != nil` is returned from the View closure; afterwards
`errors.Is(err, badger.ErrKeyNotFound)` clears the error; a successful get
(non-nil item) sets `exists = true`. -/
def existsFromEngine : Except BErr Record → Bool × Option BErr
  | Except.error BErr.keyNotFound => (false, none)
  | Except.error e => (false, some e)
  | Except.ok _ => (true, none)

/-- `KV.Exists` on the deterministic store model. -/
def kvExists (s : Store) (now : Int) (k : String) : Bool :=
  (existsFromEngine (engineGet s now k)).1

/-- `KV.Get` (main.go:178-193): fetches the key and copies the value out;
any engine error (including key-not-found) is propagated. -/
def kvGet (s : Store) (now : Int) (k : String) : Except BErr String :=
  match engineGet s now k with
  | Except.error e => Except.error e
  | Except.ok r => Except.ok r.value

/-- `KV.Set` (main.go:195-207): with `expiryMinutes == 0` the plain value is
written (no expiry); otherwise the entry carries a TTL of `expiryMinutes`
minutes, i.e. an absolute expiry of `now + expiryMinutes`. -/
def kvSet (s : Store) (now : Int) (k v : String) (expiryMinutes : Int) : Store :=
  fun k' =>
    if k' = k then
      some { value := v
             expiresAt := if expiryMinutes = 0 then none else some (now + expiryMinutes) }
    else s k'

/-- `KV.Delete` (main.go:209-214): removes the key unconditionally
(`txn.Delete` succeeds whether or not the key exists). -/
def kvDelete (s : Store) (k : String) : Store :=
  fun k' => if k' = k then none else s k'

/-- Go's `strconv.Atoi`: optional sign, then at least one decimal digit and
nothing else; errors (None) on empty input, invalid characters, or a value
outside the 64-bit signed range. -/
def digitsVal (l : List Char) : Option Nat :=
  l.foldl
    (fun acc c =>
      match acc with
      | none => none
      | some n => if '0' ≤ c ∧ c ≤ '9' then some (n * 10 + (c.toNat - 48)) else none)
    (some 0)

def goAtoi (str : String) : Option Int :=
  match str.toList with
  | [] => none
  | c :: rest =>
    let signed : Bool × List Char :=
      if c = '-' then (true, rest)
      else if c = '+' then (false, rest)
      else (false, c :: rest)
    match signed.2 with
    | [] => none
    | ds =>
      match digitsVal ds with
      | none => none
      | some n =>
        let v : Int := if signed.1 then -(n : Int) else (n : Int)
        if -(2 ^ 63) ≤ v ∧ v ≤ 2 ^ 63 - 1 then some v else none

/-- The 62-character alphabet of `GenerateRandomString` (main.go:217). -/
def lettersList : List Char :=
  "0123456789ABCDEFGHIJKLMNOPQRSTUVWXYZabcdefghijklmnopqrstuvwxyz".toList

/-- The random source: the i-th call to `rand.Int(rand.Reader, 62)`, which
either fails (entropy read error) or yields a uniform index below 62. -/
abbrev RandSrc := Nat → Option (Fin 62)

/-- The loop body of `GenerateRandomString`: characters at positions
`i, i+1, …, i+k-1`, stopping with `none` on the first entropy failure. -/
def genFrom (r : RandSrc) : Nat → Nat → Option (List Char)
  | _, 0 => some []
  | i, k + 1 =>
    match r i with
    | none => none
    | some f =>
      match genFrom r (i + 1) k with
      | none => none
      | some rest => some (lettersList.getD f.val 'A' :: rest)

/-- Outcome of `GenerateRandomString`: a runtime panic (from
`make([]byte, n)` with negative `n`), an entropy-source error, or the
generated string. -/
inductive GenResult
  | panicked
  | randErr
  | ok (s : String)
deriving DecidableEq

/-- `GenerateRandomString` (main.go:216-228). `make([]byte, n)` panics for
negative `n`; otherwise the loop fills `n` characters from the alphabet,
returning an error if the entropy source fails. -/
def GenerateRandomString (n : Int) (r : RandSrc) : GenResult :=
  if n < 0 then GenResult.panicked
  else
    match genFrom r 0 n.toNat with
    | none => GenResult.randErr
    | some l => GenResult.ok (String.mk l)

/-- The short-code length configured at process start (main.go:32-36):
`strconv.Atoi(os.Getenv("SHORT_CODE_LENGTH"))`, defaulting to 6 when the
parse fails (an unset variable reads as "" and fails to parse). -/
def parseShortCodeLength (env : String) : Int :=
  match goAtoi env with
  | none => 6
  | some n => n

/-- HTTP-level responses produced by the handlers. -/
inductive Response
  | badRequest (msg : String)
  | internalError
  | panicked
  | created (code : String)
  | notFound
  | noContent
  | redirect (url : String)
deriving DecidableEq

/-- `createHandler` (main.go:87-134): validates `url` non-empty, validates
`expiry` when supplied (numeric and ≥ 1), generates a code when `custom` is
empty, then writes via `KV.Set` and answers 201 with the code. Early
returns are modelled with `Except`. -/
def createHandler (s : Store) (now : Int) (r : RandSrc) (len : Int)
    (custom url expiry : String) : Response × Store :=
  if url = "" then (Response.badRequest "url is required", s)
  else
    let step2 : Except Response Int :=
      if expiry = "" then Except.ok 0
      else
        match goAtoi expiry with
        | none => Except.error (Response.badRequest "expiry must be a number")
        | some e =>
          if e < 1 then Except.error (Response.badRequest "expiry must be greater than 0")
          else Except.ok e
    match step2 with
    | Except.error resp => (resp, s)
    | Except.ok expiryMinutes =>
      let codeR : Except Response String :=
        if custom = "" then
          match GenerateRandomString len r with
          | GenResult.panicked => Except.error Response.panicked
          | GenResult.randErr => Except.error Response.internalError
          | GenResult.ok c => Except.ok c
        else Except.ok custom
      match codeR with
      | Except.error resp => (resp, s)
      | Except.ok code => (Response.created code, kvSet s now code url expiryMinutes)

/-- `redirectHandler` (main.go:65-85): Exists, then Get, then redirect. -/
def redirectHandler (s : Store) (now : Int) (code : String) : Response :=
  if kvExists s now code then
    match kvGet s now code with
    | Except.ok url => Response.redirect url
    | Except.error _ => Response.internalError
  else Response.notFound

/-- `deleteHandler` (main.go:136-155): Exists, then Delete, then 204. -/
def deleteHandler (s : Store) (now : Int) (code : String) : Response × Store :=
  if kvExists s now code then (Response.noContent, kvDelete s code)
  else (Response.notFound, s)

-- ===================== helper lemmas =====================

theorem letterAt_mem (f : Fin 62) : lettersList.getD f.val 'A' ∈ lettersList := by
  revert f
  decide

theorem kvSet_self (s : Store) (now : Int) (k v : String) (ttl : Int) :
    kvSet s now k v ttl k =
      some { value := v, expiresAt := if ttl = 0 then none else some (now + ttl) } := by
  simp [kvSet]

theorem redirect_set_noexpiry (s : Store) (now now' : Int) (c url : String) :
    redirectHandler (kvSet s now c url 0) now' c = Response.redirect url := by
  simp [redirectHandler, kvExists, existsFromEngine, engineGet, kvSet, kvGet, live]

theorem genFrom_spec (r : RandSrc) :
    ∀ (k i : Nat) (l : List Char), genFrom r i k = some l →
      l.length = k ∧ ∀ c ∈ l, c ∈ lettersList := by
  intro k
  induction k with
  | zero =>
    intro i l h
    simp only [genFrom, Option.some.injEq] at h
    subst h
    simp
  | succ k ih =>
    intro i l h
    simp only [genFrom] at h
    cases hr : r i with
    | none => rw [hr] at h; cases h
    | some f =>
      rw [hr] at h
      cases hg : genFrom r (i + 1) k with
      | none => rw [hg] at h; cases h
      | some rest =>
        rw [hg] at h
        simp only [Option.some.injEq] at h
        subst h
        obtain ⟨hlen, hmem⟩ := ih (i + 1) rest hg
        refine ⟨by simp [hlen], ?_⟩
        intro c hc
        rcases List.mem_cons.mp hc with h1 | h2
        · subst h1
          exact letterAt_mem f
        · exact hmem c h2

theorem createHandler_custom (s : Store) (now : Int) (r : RandSrc) (len : Int)
    (custom url : String) (hc : custom ≠ "") (hu : url ≠ "") :
    createHandler s now r len custom url "" =
      (Response.created custom, kvSet s now custom url 0) := by
  simp [createHandler, hu, hc]

theorem createHandler_created (s : Store) (now : Int) (r : RandSrc) (len : Int)
    (custom url : String) (c : String) (s' : Store)
    (h : createHandler s now r len custom url "" = (Response.created c, s')) :
    s' = kvSet s now c url 0 := by
  by_cases hu : url = ""
  · simp [createHandler, hu] at h
  · simp only [createHandler, hu, if_false, if_neg hu, reduceIte] at h
    by_cases hcu : custom = ""
    · simp only [hcu, reduceIte] at h
      cases hg : GenerateRandomString len r with
      | panicked => rw [hg] at h; simp at h
      | randErr => rw [hg] at h; simp at h
      | ok code =>
        rw [hg] at h
        simp only [Prod.mk.injEq, Response.created.injEq] at h
        obtain ⟨hcode, hs⟩ := h
        subst hcode
        exact hs.symm
    · simp only [hcu, reduceIte, Prod.mk.injEq, Response.created.injEq] at h
      obtain ⟨hcode, hs⟩ := h
      subst hcode
      exact hs.symm

-- ===================== claims =====================

/-- C1: Round-trip. For every non-empty url, a create request that answers
`201 Created` with code `c` (any `custom` field, no expiry supplied) leaves
a store in which resolving `c` at any later time redirects to exactly that
url. -/
theorem create_resolve_roundtrip (s : Store) (now now' : Int) (r : RandSrc)
    (len : Int) (custom url c : String) (s' : Store)
    (hurl : url ≠ "")
    (h : createHandler s now r len custom url "" = (Response.created c, s')) :
    redirectHandler s' now' c = Response.redirect url := by
  have hs' := createHandler_created s now r len custom url c s' h
  subst hs'
  exact redirect_set_noexpiry s now now' c url

/-- C1 witness: create "abc" ↦ "https://example.com", then resolve. -/
theorem create_resolve_roundtrip_witness :
    redirectHandler (kvSet emptyStore 0 "abc" "https://example.com" 0) 5 "abc" =
      Response.redirect "https://example.com" :=
  create_resolve_roundtrip emptyStore 0 5 (fun _ => some 0) 6 "abc"
    "https://example.com" "abc" (kvSet emptyStore 0 "abc" "https://example.com" 0)
    (by decide) rfl

/-- C2: For every length ≥ 1, `GenerateRandomString length` on success
returns a string of exactly `length` characters, each a member of the
62-character alphabet `0-9A-Za-z`. -/
theorem GenerateRandomString_length_alphabet (n : Int) (r : RandSrc) (s : String)
    (hn : 1 ≤ n) (h : GenerateRandomString n r = GenResult.ok s) :
    s.length = n.toNat ∧ ∀ c ∈ s.toList, c ∈ lettersList := by
  unfold GenerateRandomString at h
  rw [if_neg (by omega)] at h
  cases hg : genFrom r 0 n.toNat with
  | none => rw [hg] at h; cases h
  | some l =>
    rw [hg] at h
    simp only [GenResult.ok.injEq] at h
    subst h
    have := genFrom_spec r n.toNat 0 l hg
    simpa [String.length, String.toList] using this

/-- C2 witness: length 2 with a source that always yields index 0. -/
theorem GenerateRandomString_length_alphabet_witness :
    ("00" : String).length = (2 : Int).toNat ∧
      ∀ c ∈ ("00" : String).toList, c ∈ lettersList :=
  GenerateRandomString_length_alphabet 2 (fun _ => some 0) "00" (by decide) rfl

/-- C3: Create validation. With an empty url, or with a supplied expiry that
is non-numeric or parses to a value below 1, the create handler answers
`400 Bad Request` and performs no store write (the store is unchanged). -/
theorem create_validation (s : Store) (now : Int) (r : RandSrc) (len : Int)
    (custom url expiry : String)
    (h : url = "" ∨
      (expiry ≠ "" ∧ (goAtoi expiry = none ∨ ∃ e, goAtoi expiry = some e ∧ e < 1))) :
    (∃ msg, (createHandler s now r len custom url expiry).1 = Response.badRequest msg) ∧
    (createHandler s now r len custom url expiry).2 = s := by
  rcases h with hu | ⟨he, hp⟩
  · subst hu
    exact ⟨⟨"url is required", rfl⟩, rfl⟩
  · by_cases hu : url = ""
    · subst hu
      exact ⟨⟨"url is required", rfl⟩, rfl⟩
    · rcases hp with hnone | ⟨e, hsome, hlt⟩
      · refine ⟨⟨"expiry must be a number", ?_⟩, ?_⟩ <;>
          simp [createHandler, hu, he, hnone]
      · refine ⟨⟨"expiry must be greater than 0", ?_⟩, ?_⟩ <;>
          simp [createHandler, hu, he, hsome, hlt]

/-- C3 witness: the empty-url case on the empty store. -/
theorem create_validation_witness :
    (∃ msg, (createHandler emptyStore 0 (fun _ => some 0) 6 "" "" "7").1 =
      Response.badRequest msg) ∧
    (createHandler emptyStore 0 (fun _ => some 0) 6 "" "" "7").2 = emptyStore :=
  create_validation emptyStore 0 (fun _ => some 0) 6 "" "" "7" (Or.inl rfl)

/-- C4: `KV.Set` with `ttlMinutes = 0` writes the value with no expiry, and
such a record is live at every time (it never expires); with positive
`ttlMinutes` it writes the value with expiry timestamp `now + ttlMinutes`. -/
theorem kvSet_ttl_semantics (s : Store) (now : Int) (k v : String) (ttl : Int) :
    (kvSet s now k v 0 k = some { value := v, expiresAt := none } ∧
      ∀ now', live now' { value := v, expiresAt := none } = true) ∧
    (0 < ttl → kvSet s now k v ttl k = some { value := v, expiresAt := some (now + ttl) }) := by
  refine ⟨⟨by simp [kvSet], fun now' => rfl⟩, fun hpos => ?_⟩
  simp [kvSet]
  omega

/-- C4 witness: ttl 3 at time 10 gives expiry 13. -/
theorem kvSet_ttl_semantics_witness :
    kvSet emptyStore 10 "k" "v" 3 "k" = some { value := "v", expiresAt := some 13 } :=
  (kvSet_ttl_semantics emptyStore 10 "k" "v" 3).2 (by decide)

/-- C5: `KV.Exists` returns `(false, no error)` when the engine reports
key-not-found, `(true, no error)` on a successful fetch, propagates any
other engine read failure as an error, and in particular reports `true`
whenever the store holds a live record for the key. -/
theorem kvExists_semantics (s : Store) (now : Int) (k : String) :
    existsFromEngine (Except.error BErr.keyNotFound) = (false, none) ∧
    (∀ r, existsFromEngine (Except.ok r) = (true, none)) ∧
    existsFromEngine (Except.error BErr.other) = (false, some BErr.other) ∧
    ((∃ r, s k = some r ∧ live now r = true) → kvExists s now k = true) := by
  refine ⟨rfl, fun r => rfl, rfl, ?_⟩
  rintro ⟨r, hr, hl⟩
  simp [kvExists, engineGet, hr, hl, existsFromEngine]

/-- C5 witness: a store holding a single unexpiring record for "k". -/
theorem kvExists_semantics_witness :
    kvExists (fun k => if k = "k" then some { value := "v", expiresAt := none } else none)
      0 "k" = true :=
  (kvExists_semantics
      (fun k => if k = "k" then some { value := "v", expiresAt := none } else none)
      0 "k").2.2.2 ⟨{ value := "v", expiresAt := none }, by decide, rfl⟩

theorem redirect_deleted (s : Store) (now : Int) (c : String) :
    redirectHandler (kvDelete s c) now c = Response.notFound := by
  simp [redirectHandler, kvExists, existsFromEngine, engineGet, kvDelete]

theorem exists_after_set_noexpiry (s : Store) (now now' : Int) (c url : String) :
    kvExists (kvSet s now c url 0) now' c = true := by
  simp [kvExists, existsFromEngine, engineGet, kvSet, live]

/-- C6: Last-write-wins overwrite. For every custom code and pair of
non-empty urls, creating `code ↦ u1` and then `code ↦ u2` (no expiry)
leaves the store mapping `code` to `u2`, and resolving `code` afterwards
redirects to `u2`. -/
theorem create_overwrite (s : Store) (now₁ now₂ now' : Int) (r₁ r₂ : RandSrc)
    (len : Int) (code u1 u2 : String)
    (hc : code ≠ "") (h1 : u1 ≠ "") (h2 : u2 ≠ "") :
    (createHandler (createHandler s now₁ r₁ len code u1 "").2 now₂ r₂ len code u2 "").2
        code = some { value := u2, expiresAt := none } ∧
    redirectHandler
        ((createHandler (createHandler s now₁ r₁ len code u1 "").2 now₂ r₂ len code u2 "").2)
        now' code = Response.redirect u2 := by
  rw [createHandler_custom s now₁ r₁ len code u1 hc h1]
  rw [show (Response.created code, kvSet s now₁ code u1 0).2 = kvSet s now₁ code u1 0 from rfl]
  rw [createHandler_custom (kvSet s now₁ code u1 0) now₂ r₂ len code u2 hc h2]
  exact ⟨by simp [kvSet], redirect_set_noexpiry (kvSet s now₁ code u1 0) now₂ now' code u2⟩

/-- C6 witness: "abc" ↦ "https://a.com" then "abc" ↦ "https://b.com". -/
theorem create_overwrite_witness :
    (createHandler (createHandler emptyStore 0 (fun _ => some 0) 6 "abc" "https://a.com" "").2
        1 (fun _ => some 0) 6 "abc" "https://b.com" "").2 "abc" =
      some { value := "https://b.com", expiresAt := none } ∧
    redirectHandler
        ((createHandler
          (createHandler emptyStore 0 (fun _ => some 0) 6 "abc" "https://a.com" "").2
          1 (fun _ => some 0) 6 "abc" "https://b.com" "").2)
        2 "abc" = Response.redirect "https://b.com" :=
  create_overwrite emptyStore 0 1 2 (fun _ => some 0) (fun _ => some 0) 6
    "abc" "https://a.com" "https://b.com" (by decide) (by decide) (by decide)

/-- C7: Delete-then-resolve. After creating a custom code and then removing
it, resolving it answers `404 Not Found`; and in general, resolving any
code without a live record answers `404 Not Found`. -/
theorem delete_then_resolve (s : Store) (now₁ now₂ now₃ : Int) (r : RandSrc)
    (len : Int) (code url : String) (hc : code ≠ "") (hu : url ≠ "") :
    redirectHandler
        (deleteHandler (createHandler s now₁ r len code url "").2 now₂ code).2
        now₃ code = Response.notFound ∧
    ∀ (s' : Store) (now : Int) (c : String),
      kvExists s' now c = false → redirectHandler s' now c = Response.notFound := by
  constructor
  · rw [createHandler_custom s now₁ r len code url hc hu]
    rw [show (Response.created code, kvSet s now₁ code url 0).2 = kvSet s now₁ code url 0
      from rfl]
    simp only [deleteHandler, exists_after_set_noexpiry s now₁ now₂ code url, if_true]
    exact redirect_deleted (kvSet s now₁ code url 0) now₃ code
  · intro s' now c h
    simp [redirectHandler, h]

/-- C7 witness: create "xyz", remove it, resolve it. -/
theorem delete_then_resolve_witness :
    redirectHandler
        (deleteHandler (createHandler emptyStore 0 (fun _ => some 0) 6 "xyz" "https://a.com" "").2
          1 "xyz").2
        2 "xyz" = Response.notFound :=
  (delete_then_resolve emptyStore 0 1 2 (fun _ => some 0) 6 "xyz" "https://a.com"
    (by decide) (by decide)).1

/-- C8: Remove on a code with no live record answers `404 Not Found` (not a
store error) and leaves the store unchanged; at the adapter layer, deleting
a non-existent key is a no-op, not an error. -/
theorem remove_absent (s : Store) (now : Int) (code : String)
    (h : kvExists s now code = false) :
    deleteHandler s now code = (Response.notFound, s) ∧
    ∀ (s' : Store) (k : String), s' k = none → kvDelete s' k = s' := by
  constructor
  · simp [deleteHandler, h]
  · intro s' k hk
    funext k'
    by_cases hkk : k' = k
    · subst hkk
      simp [kvDelete, hk]
    · simp [kvDelete, hkk]

/-- C8 witness: remove "x" from the empty store. -/
theorem remove_absent_witness :
    deleteHandler emptyStore 0 "x" = (Response.notFound, emptyStore) :=
  (remove_absent emptyStore 0 "x" rfl).1

/-- C9 counterexample: the environment value "0" is neither unset nor
unparsable (`strconv.Atoi` succeeds), so no default applies, and the length
used for code generation is 0 — not a positive integer. The code performs
no positivity check. -/
theorem parseShortCodeLength_not_positive :
    goAtoi "0" = some 0 ∧ parseShortCodeLength "0" = 0 ∧
      ¬ (0 < parseShortCodeLength "0") := by
  refine ⟨rfl, rfl, ?_⟩
  rw [show parseShortCodeLength "0" = 0 from rfl]
  decide

/-- C9 (amended): when the configuration value is unset (read as the empty
string) or unparsable, the length used for code generation defaults to 6;
when it parses, the parsed value is used as-is, with no positivity check. -/
theorem parseShortCodeLength_spec (e : String) :
    parseShortCodeLength "" = 6 ∧
    (goAtoi e = none → parseShortCodeLength e = 6) ∧
    (∀ n, goAtoi e = some n → parseShortCodeLength e = n) := by
  refine ⟨rfl, fun h => ?_, fun n h => ?_⟩ <;> simp [parseShortCodeLength, h]

/-- C9 witness: the unparsable value "abc" defaults to 6. -/
theorem parseShortCodeLength_spec_witness :
    parseShortCodeLength "abc" = 6 :=
  (parseShortCodeLength_spec "abc").2.1 rfl

/-- C10: `GenerateRandomString` is total only for n ≥ 0: at n = 0 it
returns the empty string with no error, and for negative n the allocation
`make([]byte, n)` panics. The positivity requirement on the configured
length is not enforced: "0" parses to length 0, and a create request with
no custom code then succeeds with an empty short code rather than failing
validation. -/
theorem GenerateRandomString_nonpositive (n : Int) (r : RandSrc) :
    GenerateRandomString 0 r = GenResult.ok "" ∧
    (n < 0 → GenerateRandomString n r = GenResult.panicked) ∧
    parseShortCodeLength "0" = 0 ∧
    (createHandler emptyStore 0 r (parseShortCodeLength "0") "" "https://x.com" "").1 =
      Response.created "" := by
  refine ⟨rfl, fun hn => ?_, rfl, rfl⟩
  unfold GenerateRandomString
  rw [if_pos hn]

/-- C10 witness: a negative length panics. -/
theorem GenerateRandomString_nonpositive_witness :
    GenerateRandomString (-1) (fun _ => none) = GenResult.panicked :=
  (GenerateRandomString_nonpositive (-1) (fun _ => none)).2.1 (by decide)
